import Mathlib

/-!
# Verification of the Docker TUI status-refresh and command-dispatch layer

Shallow embedding of the coordination layer of the Docker Container TUI
(`src/gui/tui/src`): the Docker status client (`services/docker_client.py`),
the command executor (`services/command_executor.py`), the service catalog
(`config/services.py`), the application refresh and dispatch flows
(`tui/app.py`), the operations screen dispatch
(`tui/screens/operations.py`), and the CLI entry validation (`main.py`).

External effects (the Docker daemon, the filesystem, `subprocess.run`,
wall-clock time, the user's confirmation response) are modelled as explicit
oracle parameters; each Python function is translated into a total Lean
function over those oracles, with every `except` branch of the source
represented by a constructor of the oracle's outcome type.
-/

set_option autoImplicit false

namespace DockerTUI

/-! ## Python `dict` model

Snapshots and catalogs in the source are Python `dict`s.  A `dict` is
modelled as an association list with insertion-order semantics:
assignment to an existing key replaces the value in place, assignment to
a fresh key appends. -/

variable {κ : Type} {α : Type}

/-- Python `d[k] = v`: replace in place if the key is present, else append. -/
def dictInsert [DecidableEq κ] : List (κ × α) → κ → α → List (κ × α)
  | [], k, v => [(k, v)]
  | (k', v') :: t, k, v =>
      if k' = k then (k, v) :: t else (k', v') :: dictInsert t k v

/-- Python `d.get(k)`: first (and in a well-formed dict, only) value at `k`. -/
def dictGet [DecidableEq κ] : List (κ × α) → κ → Option α
  | [], _ => none
  | (k', v') :: t, k => if k' = k then some v' else dictGet t k

/-- Number of entries carrying key `k` (1 in any dict built by `dictInsert`). -/
def countKey [DecidableEq κ] (d : List (κ × α)) (k : κ) : Nat :=
  (d.filter (fun e => e.1 = k)).length

/-- Building a dict by storing `f k` at every key of `names` in order. -/
def buildDict [DecidableEq κ] (f : κ → α) (names : List κ) : List (κ × α) :=
  names.foldl (fun d n => dictInsert d n (f n)) []

/-! ## Status Source: `services/docker_client.py`

The Docker daemon is abstracted as an oracle `DockerEnv`: `get` is the
outcome of `self._client.containers.get(name)` (one constructor per
`except` arm of the source), `parse_iso` is `datetime.fromisoformat`
(`none` = `ValueError`), and `py_str` is Python `str()` on a name.
The key type `κ` is left abstract because `tui/app.py` passes
`service.container_name`, which is `None` for grouped services. -/

/-- The subset of `container.attrs` read by `get_container_status`. -/
structure ContainerAttrs where
  network_ports : List (String × List String)
  created : Option String
  state_started_at : Option String
  state_health : Option (Option String)
  config_image : Option String
deriving DecidableEq, Repr

/-- A container object returned by `containers.get`. -/
structure DockerContainer where
  status : String
  attrs : ContainerAttrs
deriving DecidableEq, Repr

/-- Outcome of `self._client.containers.get(name)`, one case per handler
in the source: normal return, `NotFound`, `APIError`, any other
exception. -/
inductive ContainersGetOutcome where
  | ok (c : DockerContainer)
  | notFound
  | apiError (msg : String)
  | unexpected (msg : String)
deriving DecidableEq, Repr

/-- Oracle for the Docker daemon and the ambient Python runtime. -/
structure DockerEnv (κ : Type) where
  get : κ → ContainersGetOutcome
  parse_iso : String → Option Nat
  py_str : κ → String

/-- The `ContainerStatus` dataclass of `services/docker_client.py`. -/
structure ContainerStatus (κ : Type) where
  name : κ
  status : String
  health : Option String := none
  created_at : Option Nat := none
  started_at : Option Nat := none
  ports : Option (List (String × String)) := none
  image : Option String := none
  error_message : Option String := none
deriving DecidableEq, Repr

variable {κ : Type}

/-- Embedding of `DockerClient.get_container_status`.  `connected` is the truthiness of
`self._client`; the oracle `env.get` covers the `try` body and its three
`except` arms, so the translation is total (no exception escapes). -/
def get_container_status (connected : Bool) (env : DockerEnv κ)
    (container_name : κ) : ContainerStatus κ :=
  if connected = false then
    { name := container_name, status := "error",
      error_message := some "Docker client not connected" }
  else
    match env.get container_name with
    | .ok c =>
        let ports : List (String × String) :=
          c.attrs.network_ports.foldl
            (fun acc pr =>
              match pr.2 with
              | [] => acc
              | h :: _ => acc ++ [(pr.1, h)]) []
        let createdParse : Option Nat × Bool :=
          match c.attrs.created with
          | some s =>
              if s ≠ "" then
                match env.parse_iso (s.replace "Z" "+00:00") with
                | some t => (some t, false)
                | none => (none, true)
              else (none, false)
          | none => (none, false)
        let started_at : Option Nat :=
          if createdParse.2 then none
          else
            match c.attrs.state_started_at with
            | some s =>
                if s ≠ "" then env.parse_iso (s.replace "Z" "+00:00")
                else none
            | none => none
        let health : Option String :=
          match c.attrs.state_health with
          | some h => h
          | none => none
        { name := container_name, status := c.status, health := health,
          created_at := createdParse.1, started_at := started_at,
          ports := some ports,
          image := some (c.attrs.config_image.getD ""),
          error_message := none }
    | .notFound =>
        { name := container_name, status := "not_found",
          error_message :=
            some ("Container '" ++ env.py_str container_name ++ "' not found") }
    | .apiError msg =>
        { name := container_name, status := "error",
          error_message := some ("Docker API error: " ++ msg) }
    | .unexpected msg =>
        { name := container_name, status := "error",
          error_message := some ("Unexpected error: " ++ msg) }

/-- Embedding of `DockerClient.get_multiple_container_status`: a dict with one lookup
per requested name, built by plain `statuses[name] = ...` insertion. -/
def get_multiple_container_status [DecidableEq κ] (connected : Bool)
    (env : DockerEnv κ) (container_names : List κ) :
    List (κ × ContainerStatus κ) :=
  container_names.foldl
    (fun statuses name =>
      dictInsert statuses name (get_container_status connected env name)) []

/-- A lookup outcome that corresponds to a raised exception in the source
(`NotFound`, `APIError`, or any unexpected exception). -/
def ContainersGetOutcome.isFailure : ContainersGetOutcome → Bool
  | .ok _ => false
  | .notFound => true
  | .apiError _ => true
  | .unexpected _ => true

/-! ## Service Catalog: `config/services.py` -/

/-- The `ServicePort` dataclass. -/
structure ServicePort where
  container : Nat
  host : Nat
  description : String
deriving DecidableEq, Repr

/-- The `ServiceContainer` dataclass. -/
structure ServiceContainer where
  name : String
  container_name : String
  description : String
  ports : List ServicePort
  make_commands : Option (List (String × String)) := none
deriving DecidableEq, Repr

/-- The `ServiceConfig` dataclass. -/
structure ServiceConfig where
  id : String
  name : String
  description : String
  make_commands : List (String × String)
  compose_file_path : String
  container_name : Option String := none
  ports : Option (List ServicePort) := none
  containers : Option (List ServiceContainer) := none
  depends_on : Option (List String) := none
deriving DecidableEq, Repr

/-- The hardcoded `SERVICES` dict. -/
def SERVICES : List (String × ServiceConfig) :=
  [("postgresql",
    { id := "postgresql", name := "PostgreSQL",
      description := "PostgreSQL database server for local development",
      container_name := some "postgres",
      ports := some [{ container := 5432, host := 5432, description := "PostgreSQL" }],
      make_commands :=
        [("start", "start-postgres"), ("stop", "stop-postgres"),
         ("logs", "logs-postgres"), ("shell", "shell-postgres")],
      compose_file_path := "src/postgresql/docker-compose.yml" }),
   ("redis",
    { id := "redis", name := "Redis",
      description := "Redis cache and message broker for local development",
      container_name := some "redis",
      ports := some [{ container := 6379, host := 6379, description := "Redis" }],
      make_commands :=
        [("start", "start-redis"), ("stop", "stop-redis"),
         ("logs", "logs-redis"), ("shell", "shell-redis")],
      compose_file_path := "src/redis/docker-compose.yml" }),
   ("opensearch",
    { id := "opensearch", name := "OpenSearch Stack",
      description :=
        "OpenSearch engine and dashboards for search, analytics, and visualization",
      make_commands := [("start", "start-opensearch"), ("stop", "stop-opensearch")],
      compose_file_path := "src/opensearch/docker-compose.yml",
      containers := some
        [{ name := "OpenSearch", container_name := "opensearch-node",
           description := "Search and analytics engine",
           ports :=
             [{ container := 9200, host := 9200, description := "OpenSearch API" },
              { container := 9600, host := 9600,
                description := "OpenSearch Performance Analyzer" }],
           make_commands := some
             [("logs", "logs-opensearch"), ("shell", "shell-opensearch")] },
         { name := "OpenSearch Dashboards",
           container_name := "opensearch-dashboards",
           description := "Web interface for data visualization",
           ports :=
             [{ container := 5601, host := 5601,
                description := "Dashboards Web UI" }],
           make_commands := some [("logs", "logs-dashboards")] }] })]

/-- Embedding of `get_all_services()`: the values of the `SERVICES` dict. -/
def get_all_services : List ServiceConfig := SERVICES.map (·.2)

/-- Every container identity the catalog declares: the per-service
`container_name` fields plus the `container_name` of every member of a
grouped service's `containers` list. -/
def declared_container_identities (svcs : List ServiceConfig) : List String :=
  svcs.foldr
    (fun svc acc =>
      (match svc.container_name with
       | some n => [n]
       | none => []) ++
      (match svc.containers with
       | some cs => cs.map (·.container_name)
       | none => []) ++ acc) []

/-! ## Refresh Coordinator: `DockerTUIApp.refresh_status` (`tui/app.py`)

`is_connected` / `reconnect_succeeds` are the boolean results of the two
`DockerClient` calls made by one refresh; `env` drives the per-container
lookups performed once the client is live.  The key type is
`Option String` because `refresh_status` collects
`[service.container_name for service in self.services]` and
`container_name` is `None` for grouped services. -/

/-- Status-source behaviour observed during one `refresh_status` call. -/
structure RefreshDaemon where
  is_connected : Bool
  reconnect_succeeds : Bool
  env : DockerEnv (Option String)

/-- The application state touched by `refresh_status`. -/
structure AppStatusState where
  container_statuses : List (Option String × ContainerStatus (Option String))
  last_refresh : Option Nat
deriving DecidableEq, Repr

/-- Observable effects of one `refresh_status` call: how many times
`reconnect()` ran, what `_update_connection_status` displayed, and
whether the refresh completed (replaced the snapshot). -/
structure RefreshTrace where
  reconnect_attempts : Nat
  connection_signal : Option String
  completed : Bool
deriving DecidableEq, Repr

/-- The queried name list `[service.container_name for service in self.services]`. -/
def service_container_names (services : List ServiceConfig) :
    List (Option String) :=
  services.map (·.container_name)

/-- Embedding of `DockerTUIApp.refresh_status`: reconnect-once on disconnect, abandon
on failure, otherwise rebuild the snapshot wholesale and stamp
`last_refresh = datetime.now()` (modelled by `now`). -/
def refresh_status (services : List ServiceConfig) (d : RefreshDaemon)
    (now : Nat) (s : AppStatusState) : AppStatusState × RefreshTrace :=
  if d.is_connected = false && d.reconnect_succeeds = false then
    (s, { reconnect_attempts := 1, connection_signal := some "Disconnected",
          completed := false })
  else
    ({ container_statuses :=
         get_multiple_container_status true d.env
           (service_container_names services),
       last_refresh := some now },
     { reconnect_attempts := if d.is_connected then 0 else 1,
       connection_signal := some "Connected", completed := true })

/-! ## Command Delegate: `services/command_executor.py`

`subprocess.run` is an oracle returning one outcome per `except` arm of
`_execute_command`; the filesystem is an oracle for `os.path.exists` and
`Path.exists`. -/

/-- The `CommandResult` dataclass. -/
structure CommandResult where
  success : Bool
  return_code : Int
  stdout : String
  stderr : String
  command : String
deriving DecidableEq, Repr

/-- Outcome of one `subprocess.run` call: completion with a return code,
`subprocess.TimeoutExpired`, `FileNotFoundError`, or any other
exception. -/
inductive RunOutcome where
  | completed (returncode : Int) (stdout stderr : String)
  | timedOut
  | fileNotFound (msg : String)
  | raised (msg : String)
deriving DecidableEq, Repr

/-- Oracle for one delegate invocation: what `subprocess.run` does for a
given argv and timeout. -/
def RunOracle : Type := List String → Nat → RunOutcome

/-- Embedding of `CommandExecutor._execute_command`: every exceptional outcome is
folded into a failure `CommandResult`; nothing escapes. -/
def _execute_command (run : RunOracle) (command : List String)
    (timeout : Nat) (capture_output : Bool) : CommandResult :=
  match run command timeout with
  | .completed rc out err =>
      { success := rc == 0, return_code := rc,
        stdout := if capture_output then out else "",
        stderr := if capture_output then err else "",
        command := String.intercalate " " command }
  | .timedOut =>
      { success := false, return_code := -1, stdout := "",
        stderr := "Command timed out after " ++ toString timeout ++ " seconds",
        command := String.intercalate " " command }
  | .fileNotFound msg =>
      { success := false, return_code := -1, stdout := "",
        stderr := "Command not found: " ++ msg,
        command := String.intercalate " " command }
  | .raised msg =>
      { success := false, return_code := -1, stdout := "",
        stderr := "Unexpected error: " ++ msg,
        command := String.intercalate " " command }

/-- Embedding of `CommandExecutor.execute_make_command`. -/
def execute_make_command (run : RunOracle) (target : String)
    (timeout : Nat) (capture_output : Bool) : CommandResult :=
  _execute_command run ["make", target] timeout capture_output

/-- Model of `os.path.join` for the two-argument uses in the source. -/
def os_path_join (a b : String) : String :=
  if b.startsWith "/" then b
  else if a.endsWith "/" then a ++ b
  else a ++ "/" ++ b

/-- Embedding of `CommandExecutor.execute_script`: reject a missing script with a
`-1` sentinel before invoking the delegate. -/
def execute_script (file_exists : String → Bool) (repository_root : String)
    (run : RunOracle) (script_path : String) (args : List String)
    (timeout : Nat) (capture_output : Bool) : CommandResult :=
  let full_script_path := os_path_join repository_root script_path
  if file_exists full_script_path = false then
    { success := false, return_code := -1, stdout := "",
      stderr := "Script not found: " ++ full_script_path,
      command := script_path }
  else
    _execute_command run (full_script_path :: args) timeout capture_output

/-! ## Command Delegate construction: `CommandExecutor.__init__`

Paths are lists of components with the deepest component first, so
`Path.parent` is `List.tail` and `(p / "..").resolve()` drops a
component; resolving `..` at the filesystem root is the identity, as in
`pathlib`. -/

/-- A resolved `pathlib.Path`; deepest component first, `[]` is `/`. -/
abbrev PyPath : Type := List String

/-- Path join `p / name`. -/
def pathChild (p : PyPath) (name : String) : PyPath := name :: p

/-- Parent directory `p.parent` (the parent of the root is the root itself). -/
def pathParent (p : PyPath) : PyPath := p.tail

/-- The filesystem oracle: `Path.exists()` / `os.path.exists`. -/
structure FileSystem where
  pathExists : PyPath → Bool

/-- The repository-root test from `_find_repository_root`: a `Makefile`
marker together with the `src` and `scripts` subdirectories. -/
def is_repo_root (fs : FileSystem) (dir : PyPath) : Bool :=
  fs.pathExists (pathChild dir "Makefile") &&
    fs.pathExists (pathChild dir "src") &&
    fs.pathExists (pathChild dir "scripts")

/-- The `for _ in range(max_levels)` walk of `_find_repository_root`:
test the current directory, stop at the filesystem root, else move to
the parent. -/
def walk_up (fs : FileSystem) : Nat → PyPath → Option PyPath
  | 0, _ => none
  | Nat.succ n, dir =>
      if is_repo_root fs dir then some dir
      else if pathParent dir = dir then none
      else walk_up fs n (pathParent dir)

/-- Embedding of `CommandExecutor._find_repository_root`: walk up at most 10 levels
from the provided path (or from this file's own location), then, only
when no path was provided, try the two hard-coded relative fallbacks
from the script's directory. -/
def _find_repository_root (fs : FileSystem) (file_location : PyPath)
    (provided_path : Option PyPath) : Option PyPath :=
  let start :=
    match provided_path with
    | some p => p
    | none => file_location
  match walk_up fs 10 start with
  | some r => some r
  | none =>
      match provided_path with
      | some _ => none
      | none =>
          let script_dir := pathParent file_location
          let c1 : PyPath := List.drop 4 script_dir
          let c2 : PyPath := List.drop 5 script_dir
          if is_repo_root fs c1 then some c1
          else if is_repo_root fs c2 then some c2
          else none

/-- Embedding of `CommandExecutor._check_make_available`: `subprocess.run(["make",
"--version"], ..., timeout=5)`; `TimeoutExpired` and `FileNotFoundError`
yield `False`, every other exception propagates (`.error`). -/
def check_make_available (make_run : RunOutcome) : Except String Bool :=
  match make_run with
  | .completed rc _ _ => .ok (rc == 0)
  | .timedOut => .ok false
  | .fileNotFound _ => .ok false
  | .raised msg => .error msg

/-- Result of `CommandExecutor.__init__`: a constructed executor, a
`RuntimeError` with its message, or an exception that escaped
`_check_make_available`. -/
inductive InitOutcome where
  | ok (repository_root : PyPath)
  | raisedRuntimeError (msg : String)
  | uncaught (msg : String)
deriving DecidableEq, Repr

/-- Embedding of `CommandExecutor.__init__`: locate the repository root, then verify
`make`, failing fast with a descriptive `RuntimeError` otherwise. -/
def commandExecutor_init (fs : FileSystem) (file_location : PyPath)
    (make_run : RunOutcome) (provided_path : Option PyPath) : InitOutcome :=
  match _find_repository_root fs file_location provided_path with
  | none => .raisedRuntimeError "Could not find repository root directory"
  | some root =>
      match check_make_available make_run with
      | .error msg => .uncaught msg
      | .ok false => .raisedRuntimeError "Make command not available"
      | .ok true => .ok root

/-! ## Command Dispatcher, app side: `DockerTUIApp.execute_make_command`
(`tui/app.py`) -/

/-- A constructed `CommandExecutor` together with the oracles its
delegate calls consult. -/
structure ExecCtx where
  repository_root : String
  file_exists : String → Bool
  run : RunOracle

/-- Observable effects of one `DockerTUIApp.execute_make_command` call. -/
structure AppDispatchTrace where
  delegate_calls : Nat
  refresh_calls : Nat
  notifications : List String
deriving DecidableEq, Repr

/-- Embedding of `DockerTUIApp.execute_make_command`: short-circuit when the executor
is unavailable, otherwise notify, delegate with `timeout=60`, notify the
outcome, and call `refresh_status()` exactly once. -/
def app_execute_make_command (command_executor : Option ExecCtx)
    (command : String) (description : String) :
    CommandResult × AppDispatchTrace :=
  match command_executor with
  | none =>
      ({ success := false, return_code := -1, stdout := "",
         stderr := "Command executor not available", command := command },
       { delegate_calls := 0, refresh_calls := 0, notifications := [] })
  | some ex =>
      let exec_note :=
        if description ≠ "" then "Executing: " ++ description
        else "Executing: make " ++ command
      let result := execute_make_command ex.run command 60 true
      let label := if description ≠ "" then description else command
      let result_note :=
        if result.success then label ++ " completed successfully"
        else label ++ " failed"
      (result,
       { delegate_calls := 1, refresh_calls := 1,
         notifications := [exec_note, result_note] })

/-! ## Command Dispatcher, operations screen:
`OperationsScreen.action_execute_operation`
(`tui/screens/operations.py`)

The user's answer to `_show_confirmation` is a parameter
(`confirm_response`); the source's own `_show_confirmation` body is
`show_confirmation_stub` below.  The tests drive this seam by replacing
`_show_confirmation`, so the dispatch logic is quantified over the
response. -/

/-- One value of the `SYSTEM_OPERATIONS` dict: a dict with optional
`command`, `script` and `description` keys. -/
structure OpData where
  command : Option String := none
  script : Option String := none
  description : Option String := none
deriving DecidableEq, Repr

/-- Python truthiness of the `op_data` dict: `not op_data` holds exactly
when the dict has no keys. -/
def OpData.isEmptyDict (d : OpData) : Bool :=
  d.command.isNone && d.script.isNone && d.description.isNone

/-- The hardcoded `SYSTEM_OPERATIONS` dict. -/
def SYSTEM_OPERATIONS : List (String × OpData) :=
  [("start_all", { command := some "start",
                   description := some "Start all services" }),
   ("stop_all", { command := some "stop",
                  description := some "Stop all services" }),
   ("status", { command := some "status",
                description := some "Show detailed status of all services" }),
   ("setup", { script := some "./scripts/setup.sh",
               description := some "Initial environment setup" }),
   ("backup", { script := some "./scripts/backup.sh",
                description := some "Create backups of all services" }),
   ("restore", { script := some "./scripts/restore.sh",
                 description := some "Restore services from backup" }),
   ("test", { command := some "test",
              description := some "Run automated test suite" })]

/-- Executable prefix test on lists (Python substring search helper). -/
def takesAhead {α : Type} [DecidableEq α] : List α → List α → Bool
  | [], _ => true
  | _ :: _, [] => false
  | a :: as, b :: bs => if a = b then takesAhead as bs else false

/-- Executable Python-style `p in l` substring containment on lists. -/
def hasInfix {α : Type} [DecidableEq α] : List α → List α → Bool
  | p, [] => takesAhead p []
  | p, a :: t => takesAhead p (a :: t) || hasInfix p t

/-- Python `str.lower()` for the ASCII operation keys. -/
def str_lower (s : String) : String :=
  ⟨s.data.map
    (fun c => if 'A' ≤ c ∧ c ≤ 'Z' then Char.ofNat (c.toNat + 32) else c)⟩

/-- The destructive-name test `any(dest in operation_key.lower() for dest in ["clean", "restore"])`. -/
def is_destructive_key (operation_key : String) : Bool :=
  hasInfix "clean".data (str_lower operation_key).data ||
    hasInfix "restore".data (str_lower operation_key).data

/-- Embedding of `OperationsScreen._show_confirmation`: the source's current body
returns `True` unconditionally. -/
def show_confirmation_stub : Bool := true

/-- Outcome of one `action_execute_operation` call, one constructor per
return path of the source. -/
inductive OpsDispatchOutcome where
  | noExecutor
  | noOperationSelected
  | invalidOperation
  | abortedByUser
  | invalidConfiguration
  | executed (result : CommandResult)
deriving DecidableEq, Repr

/-- Observable effects of one `action_execute_operation` call.
`refresh_calls` counts `refresh_status()` invocations (the source makes
none on this path); `output_cleared` records whether the output widget
was reset to "Executing operation...". -/
structure OpsTrace where
  confirm_requested : Bool
  delegate_calls : Nat
  refresh_calls : Nat
  output_cleared : Bool
deriving DecidableEq, Repr

/-- Embedding of `OperationsScreen.action_execute_operation`: guard on the executor
and the selection, treat an empty `op_data` dict as invalid, request
confirmation only for destructive names, abort on decline, then delegate
(`make` target with `timeout=120`, script with `timeout=300`), and never
trigger a status refresh. -/
def action_execute_operation (command_executor : Option ExecCtx)
    (operations : List (String × OpData)) (selected : Option String)
    (confirm_response : Bool) : OpsDispatchOutcome × OpsTrace :=
  match command_executor with
  | none =>
      (.noExecutor,
       { confirm_requested := false, delegate_calls := 0, refresh_calls := 0,
         output_cleared := false })
  | some ex =>
      match selected with
      | none =>
          (.noOperationSelected,
           { confirm_requested := false, delegate_calls := 0,
             refresh_calls := 0, output_cleared := false })
      | some operation_key =>
          let op_data := (dictGet operations operation_key).getD {}
          if op_data.isEmptyDict then
            (.invalidOperation,
             { confirm_requested := false, delegate_calls := 0,
               refresh_calls := 0, output_cleared := false })
          else if is_destructive_key operation_key && !confirm_response then
            (.abortedByUser,
             { confirm_requested := true, delegate_calls := 0,
               refresh_calls := 0, output_cleared := false })
          else
            let confirm_requested := is_destructive_key operation_key
            match op_data.command with
            | some c =>
                (.executed (execute_make_command ex.run c 120 true),
                 { confirm_requested := confirm_requested, delegate_calls := 1,
                   refresh_calls := 0, output_cleared := true })
            | none =>
                match op_data.script with
                | some sc =>
                    (.executed
                       (execute_script ex.file_exists ex.repository_root
                         ex.run sc [] 300 true),
                     { confirm_requested := confirm_requested,
                       delegate_calls := 1, refresh_calls := 0,
                       output_cleared := true })
                | none =>
                    (.invalidConfiguration,
                     { confirm_requested := confirm_requested,
                       delegate_calls := 0, refresh_calls := 0,
                       output_cleared := true })

/-! ## Periodic refresh loop: `DockerTUIApp._auto_refresh_loop`
(`tui/app.py`)

Each iteration of the `while True` loop first awaits
`asyncio.sleep(self.refresh_interval)` and then calls
`refresh_status()`.  One `TickEvent` describes what the environment does
to one iteration: cancellation arriving during the sleep (the only
`await`, hence the only cancellation point), a refresh that returns, or
a refresh that raises.  The loop is run against a finite prefix of such
events; an empty remainder means the loop is still alive. -/

/-- Behaviour of the environment during one loop iteration. -/
inductive TickEvent where
  | cancelDuringSleep
  | refreshOk
  | refreshRaises (msg : String)
deriving DecidableEq, Repr

/-- Externally visible steps taken by the loop, in order. -/
inductive LoopAction where
  | sleep
  | refreshInvoked
  | notifyError (msg : String)
deriving DecidableEq, Repr

/-- Embedding of `DockerTUIApp._auto_refresh_loop` over a finite schedule of tick
events: `asyncio.CancelledError` during the sleep breaks out of the loop
without re-raising; an exception from `refresh_status` is turned into
one `self.notify(...)` call and the loop proceeds with the next
iteration. Returns the ordered action trace and whether the loop exited
via cancellation (`false` = schedule exhausted with the loop still
running). -/
def auto_refresh_loop : List TickEvent → List LoopAction × Bool
  | [] => ([], false)
  | .cancelDuringSleep :: _ => ([], true)
  | .refreshOk :: rest =>
      let (as, c) := auto_refresh_loop rest
      (.sleep :: .refreshInvoked :: as, c)
  | .refreshRaises msg :: rest =>
      let (as, c) := auto_refresh_loop rest
      (.sleep :: .refreshInvoked ::
         .notifyError ("Auto-refresh error: " ++ msg) :: as, c)

/-- Number of error notifications in an action trace. -/
def countNotifications (as : List LoopAction) : Nat :=
  (as.filter (fun a =>
    match a with
    | .notifyError _ => true
    | _ => false)).length

/-- Number of failing ticks in a schedule. -/
def countFailingTicks (es : List TickEvent) : Nat :=
  (es.filter (fun e =>
    match e with
    | .refreshRaises _ => true
    | _ => false)).length

/-- The prefix of a schedule actually consumed by the loop: everything
up to (and excluding) the first cancellation. -/
def consumedTicks : List TickEvent → List TickEvent
  | [] => []
  | .cancelDuringSleep :: _ => []
  | e :: t => e :: consumedTicks t

/-! ## CLI entry validation: `main` (`main.py`) -/

/-- Environment consulted by `main()` after interval validation. -/
structure MainEnv where
  prereqs_ok : Bool
  provided_root : Option String
  found_root : Option String
  no_docker_check : Bool
  docker_check_raises : Bool
  docker_available : Bool
  confirm_continue : Bool
  app_keyboard_interrupt : Bool
  app_raises : Option String

/-- What one `main()` invocation did: the `sys.exit` code (or the
implicit 0 of a normal return), whether the `[1, 300]` interval
validation passed, and whether the TUI was started. -/
structure MainTrace where
  exit_code : Nat
  interval_validated : Bool
  app_started : Bool
deriving DecidableEq, Repr

/-- Embedding of `main()`: validate the refresh interval first (exit 1 when outside
`[1, 300]`), then prerequisites, repository root, the optional Docker
check, and finally run the TUI. -/
def main_run (refresh_interval : Int) (env : MainEnv) : MainTrace :=
  if refresh_interval < 1 || refresh_interval > 300 then
    { exit_code := 1, interval_validated := false, app_started := false }
  else if env.prereqs_ok = false then
    { exit_code := 1, interval_validated := true, app_started := false }
  else if env.provided_root.isNone && env.found_root.isNone then
    { exit_code := 1, interval_validated := true, app_started := false }
  else if !env.no_docker_check && !env.docker_check_raises &&
      !env.docker_available && !env.confirm_continue then
    { exit_code := 1, interval_validated := true, app_started := false }
  else if env.app_keyboard_interrupt then
    { exit_code := 0, interval_validated := true, app_started := true }
  else
    match env.app_raises with
    | some _ => { exit_code := 1, interval_validated := true, app_started := true }
    | none => { exit_code := 0, interval_validated := true, app_started := true }

/-! ## Concrete sample inputs

Closed oracle instances used to evaluate the definitions on concrete
inputs. -/

/-- A daemon environment whose every container lookup raises `NotFound`;
`py_str` is Python `str()` on an optional name. -/
def envAllNotFound : DockerEnv (Option String) :=
  { get := fun _ => .notFound,
    parse_iso := fun _ => none,
    py_str := fun o =>
      match o with
      | some s => s
      | none => "None" }

/-- A disconnected status source whose reconnect attempt fails. -/
def daemonDown : RefreshDaemon :=
  { is_connected := false, reconnect_succeeds := false, env := envAllNotFound }

/-- A disconnected status source whose reconnect attempt succeeds. -/
def daemonRecovers : RefreshDaemon :=
  { is_connected := false, reconnect_succeeds := true, env := envAllNotFound }

/-- A connected status source. -/
def daemonUp : RefreshDaemon :=
  { is_connected := true, reconnect_succeeds := true, env := envAllNotFound }

/-- A sample prior application state. -/
def sampleState : AppStatusState :=
  { container_statuses :=
      [(some "postgres",
        { name := some "postgres", status := "running" })],
    last_refresh := some 1 }

/-- An executor whose every delegate invocation completes with exit 0. -/
def sampleExecCtx : ExecCtx :=
  { repository_root := "/repo", file_exists := fun _ => true,
    run := fun _ _ => .completed 0 "" "" }

/-- A filesystem in which `/repo` is a valid repository root. -/
def fsRepo : FileSystem :=
  { pathExists := fun p =>
      decide (p = ["Makefile", "repo"] ∨ p = ["src", "repo"] ∨
        p = ["scripts", "repo"]) }

/-- A filesystem with no files at all. -/
def fsEmpty : FileSystem := { pathExists := fun _ => false }

/-- A sample environment for `main()` in which everything after interval
validation succeeds. -/
def sampleMainEnv : MainEnv :=
  { prereqs_ok := true, provided_root := none, found_root := some "/repo",
    no_docker_check := true, docker_check_raises := false,
    docker_available := true, confirm_continue := true,
    app_keyboard_interrupt := false, app_raises := none }

/-! ## Helper lemmas -/

theorem dictGet_insert_self [DecidableEq κ] (d : List (κ × α)) (k : κ) (v : α) :
    dictGet (dictInsert d k v) k = some v := by
  induction d with
  | nil => simp [dictInsert, dictGet]
  | cons e t ih =>
      obtain ⟨ek, ev⟩ := e
      by_cases h : ek = k
      · simp [dictInsert, dictGet, h]
      · simp [dictInsert, dictGet, h, ih]

theorem dictGet_insert_ne [DecidableEq κ] (d : List (κ × α)) (k k' : κ) (v : α)
    (h : k' ≠ k) : dictGet (dictInsert d k v) k' = dictGet d k' := by
  have h' : ¬ k = k' := fun he => h he.symm
  induction d with
  | nil => simp [dictInsert, dictGet, h']
  | cons e t ih =>
      obtain ⟨ek, ev⟩ := e
      by_cases hek : ek = k
      · subst hek
        simp [dictInsert, dictGet, h']
      · by_cases hek' : ek = k'
        · simp [dictInsert, dictGet, hek, hek', h]
        · simp [dictInsert, dictGet, hek, hek', ih]

theorem countKey_insert_self [DecidableEq κ] (d : List (κ × α)) (k : κ) (v : α) :
    countKey (dictInsert d k v) k = max (countKey d k) 1 := by
  induction d with
  | nil => simp [dictInsert, countKey]
  | cons e t ih =>
      obtain ⟨ek, ev⟩ := e
      by_cases h : ek = k
      · simp only [dictInsert, if_pos h, countKey, List.filter, h]
        simp
      · simp only [dictInsert, if_neg h, countKey, List.filter]
        by_cases hk : ek = k
        · exact absurd hk h
        · simp only [hk, decide_eq_true_eq, if_neg]
          simpa [countKey, hk] using ih

theorem countKey_insert_ne [DecidableEq κ] (d : List (κ × α)) (k k' : κ) (v : α)
    (h : k' ≠ k) : countKey (dictInsert d k v) k' = countKey d k' := by
  have h' : ¬ k = k' := fun he => h he.symm
  induction d with
  | nil => simp [dictInsert, countKey, h']
  | cons e t ih =>
      obtain ⟨ek, ev⟩ := e
      by_cases hek : ek = k
      · subst hek
        simp [dictInsert, countKey, h', List.filter]
      · by_cases hek' : ek = k'
        · subst hek'
          simp [dictInsert, countKey, List.filter, h]
          simpa [countKey, List.filter] using ih
        · simp only [dictInsert, if_neg hek, countKey, List.filter]
          simpa [countKey, List.filter, hek'] using ih

theorem dictGet_foldl [DecidableEq κ] (f : κ → α) (names : List κ)
    (d : List (κ × α)) (k : κ) :
    dictGet (names.foldl (fun d n => dictInsert d n (f n)) d) k =
      if k ∈ names then some (f k) else dictGet d k := by
  induction names generalizing d with
  | nil => simp
  | cons n t ih =>
      by_cases hk : k ∈ t
      · simp [List.foldl, ih, hk]
      · by_cases hkn : k = n
        · subst hkn
          simp [List.foldl, ih, hk, dictGet_insert_self]
        · simp [List.foldl, ih, hk, hkn, dictGet_insert_ne _ _ _ _ hkn]

theorem countKey_foldl [DecidableEq κ] (f : κ → α) (names : List κ)
    (d : List (κ × α)) (k : κ) :
    countKey (names.foldl (fun d n => dictInsert d n (f n)) d) k =
      if k ∈ names then max (countKey d k) 1 else countKey d k := by
  induction names generalizing d with
  | nil => simp
  | cons n t ih =>
      by_cases hkn : k = n
      · subst hkn
        by_cases hk : k ∈ t
        · simp [List.foldl, ih, hk, countKey_insert_self]
        · simp [List.foldl, ih, hk, countKey_insert_self]
      · by_cases hk : k ∈ t
        · simp [List.foldl, ih, hk, hkn, countKey_insert_ne _ _ _ _ hkn]
        · simp [List.foldl, ih, hk, hkn, countKey_insert_ne _ _ _ _ hkn]

theorem dictGet_buildDict [DecidableEq κ] (f : κ → α) (names : List κ) (k : κ) :
    dictGet (buildDict f names) k = if k ∈ names then some (f k) else none := by
  simpa [buildDict, dictGet] using dictGet_foldl f names [] k

theorem countKey_buildDict [DecidableEq κ] (f : κ → α) (names : List κ) (k : κ) :
    countKey (buildDict f names) k = if k ∈ names then 1 else 0 := by
  simpa [buildDict, countKey] using countKey_foldl f names [] k

/-- Two string concatenations differ when their left parts differ at an
index inside both. -/
theorem ne_of_data_get (a b x y : String) (i : Nat)
    (ha : i < a.data.length) (hb : i < b.data.length)
    (h : a.data[i]? ≠ b.data[i]?) : a ++ x ≠ b ++ y := by
  intro he
  apply h
  have hd : a.data ++ x.data = b.data ++ y.data := by
    have := congrArg String.data he
    simpa [String.data_append] using this
  calc a.data[i]? = (a.data ++ x.data)[i]? := (List.getElem?_append_left ha).symm
    _ = (b.data ++ y.data)[i]? := by rw [hd]
    _ = b.data[i]? := List.getElem?_append_left hb

/-- Any directory returned by the upward walk satisfies the
repository-root test. -/
theorem walk_up_is_repo_root (fs : FileSystem) :
    ∀ (n : Nat) (p r : PyPath), walk_up fs n p = some r →
      is_repo_root fs r = true := by
  intro n
  induction n with
  | zero => intro p r h; simp [walk_up] at h
  | succ n ih =>
      intro p r h
      by_cases hp : is_repo_root fs p
      · simp [walk_up, hp] at h
        subst h
        exact hp
      · by_cases hroot : pathParent p = p
        · simp [walk_up, hp, hroot] at h
        · simp [walk_up, hp, hroot] at h
          exact ih (pathParent p) r h

/-- Any root located by `_find_repository_root` satisfies the
repository-root test. -/
theorem find_repository_root_is_repo_root (fs : FileSystem)
    (file_location : PyPath) (provided_path : Option PyPath) (r : PyPath)
    (h : _find_repository_root fs file_location provided_path = some r) :
    is_repo_root fs r = true := by
  rcases provided_path with _ | p
  · unfold _find_repository_root at h
    simp only at h
    rcases hw : walk_up fs 10 file_location with _ | w
    · rw [hw] at h
      by_cases h1 : is_repo_root fs (List.drop 4 (pathParent file_location))
      · simp [h1] at h
        subst h
        exact h1
      · by_cases h2 : is_repo_root fs (List.drop 5 (pathParent file_location))
        · simp [h1, h2] at h
          subst h
          exact h2
        · simp [h1, h2] at h
    · rw [hw] at h
      simp at h
      subst h
      exact walk_up_is_repo_root fs 10 _ _ hw
  · unfold _find_repository_root at h
    simp only at h
    rcases hw : walk_up fs 10 p with _ | w
    · rw [hw] at h
      simp at h
    · rw [hw] at h
      simp at h
      subst h
      exact walk_up_is_repo_root fs 10 p _ hw

/-! ## Claim theorems -/

/-- C1: for every refresh while the Status Source is disconnected,
`refresh_status` attempts exactly one reconnect; if the reconnect fails
the refresh is abandoned, the prior snapshot and last-refresh timestamp
are left structurally unchanged, and a "Disconnected" signal is emitted;
if the reconnect succeeds the refresh completes, the snapshot is
replaced by the freshly queried one, and a "Connected" signal is
emitted. -/
theorem refresh_disconnected_reconnect_once (services : List ServiceConfig)
    (d : RefreshDaemon) (now : Nat) (s : AppStatusState)
    (h : d.is_connected = false) :
    (refresh_status services d now s).2.reconnect_attempts = 1 ∧
    (d.reconnect_succeeds = false →
      refresh_status services d now s =
        (s, { reconnect_attempts := 1,
              connection_signal := some "Disconnected",
              completed := false })) ∧
    (d.reconnect_succeeds = true →
      (refresh_status services d now s).1.container_statuses =
          get_multiple_container_status true d.env
            (service_container_names services) ∧
      (refresh_status services d now s).1.last_refresh = some now ∧
      (refresh_status services d now s).2.connection_signal =
          some "Connected" ∧
      (refresh_status services d now s).2.completed = true) := by
  rcases hr : d.reconnect_succeeds with _ | _
  · refine ⟨?_, fun _ => ?_, fun hc => by simp [hr] at hc⟩ <;>
      simp [refresh_status, h, hr]
  · refine ⟨?_, fun hc => by simp [hr] at hc, fun _ => ?_⟩ <;>
      simp [refresh_status, h, hr]

/-- Witness for C1 at concrete inputs: a failed reconnect leaves the
state untouched, a successful one replaces the snapshot. -/
theorem refresh_disconnected_reconnect_once_witness :
    (refresh_status get_all_services daemonDown 7 sampleState).2.reconnect_attempts = 1 ∧
    refresh_status get_all_services daemonDown 7 sampleState =
      (sampleState,
       { reconnect_attempts := 1, connection_signal := some "Disconnected",
         completed := false }) ∧
    (refresh_status get_all_services daemonRecovers 7 sampleState).2.completed = true :=
  ⟨(refresh_disconnected_reconnect_once get_all_services daemonDown 7
      sampleState rfl).1,
   (refresh_disconnected_reconnect_once get_all_services daemonDown 7
      sampleState rfl).2.1 rfl,
   ((refresh_disconnected_reconnect_once get_all_services daemonRecovers 7
      sampleState rfl).2.2 rfl).2.2.2⟩

/-- C2 (amended): after any completed `refresh_status`, the snapshot has
exactly one entry per element of the queried name list
`[service.container_name for service in services]` (which is the
service-level `container_name` field, `None` included for grouped
services — not every catalog-declared container identity), each entry is
that name's own lookup result, and an individual lookup failure is
recorded as an error/not-found entry with a message, never as a missing
key. -/
theorem refresh_snapshot_coverage (services : List ServiceConfig)
    (d : RefreshDaemon) (now : Nat) (s : AppStatusState)
    (hc : (refresh_status services d now s).2.completed = true) :
    (∀ k, countKey (refresh_status services d now s).1.container_statuses k =
        if k ∈ service_container_names services then 1 else 0) ∧
    (∀ k, dictGet (refresh_status services d now s).1.container_statuses k =
        if k ∈ service_container_names services then
          some (get_container_status true d.env k)
        else none) ∧
    (∀ k, k ∈ service_container_names services →
      (d.env.get k).isFailure = true →
      ∃ st,
        dictGet (refresh_status services d now s).1.container_statuses k =
            some st ∧
        (st.status = "error" ∨ st.status = "not_found") ∧
        st.error_message ≠ none) := by
  have hbranch :
      (refresh_status services d now s).1.container_statuses =
        get_multiple_container_status true d.env
          (service_container_names services) := by
    unfold refresh_status at hc ⊢
    rcases hd : (d.is_connected = false && d.reconnect_succeeds = false) with _ | _
    · simp [hd]
    · rw [hd] at hc
      simp at hc
  have hmulti :
      get_multiple_container_status true d.env
          (service_container_names services) =
        buildDict (get_container_status true d.env)
          (service_container_names services) := rfl
  rw [hbranch, hmulti]
  have hget : ∀ k, dictGet
      (buildDict (get_container_status true d.env)
        (service_container_names services)) k =
      if k ∈ service_container_names services then
        some (get_container_status true d.env k)
      else none := by
    intro k
    have h0 := dictGet_buildDict (get_container_status true d.env)
      (service_container_names services) k
    by_cases hk : k ∈ service_container_names services
    · rw [if_pos hk] at h0
      rw [if_pos hk]
      exact h0
    · rw [if_neg hk] at h0
      rw [if_neg hk]
      exact h0
  refine ⟨fun k => ?_, hget, fun k hk hf => ?_⟩
  · have h0 := countKey_buildDict (get_container_status true d.env)
      (service_container_names services) k
    by_cases hk : k ∈ service_container_names services
    · rw [if_pos hk] at h0
      rw [if_pos hk]
      exact h0
    · rw [if_neg hk] at h0
      rw [if_neg hk]
      exact h0
  · refine ⟨get_container_status true d.env k, ?_, ?_⟩
    · rw [hget k, if_pos hk]
    · rcases hg : d.env.get k with c | _ | m | m
      · rw [hg] at hf
        simp [ContainersGetOutcome.isFailure] at hf
      · constructor
        · right
          simp [get_container_status, hg]
        · simp [get_container_status, hg]
      · constructor
        · left
          simp [get_container_status, hg]
        · simp [get_container_status, hg]
      · constructor
        · left
          simp [get_container_status, hg]
        · simp [get_container_status, hg]

/-- Witness for C2 (amended) at concrete inputs: with a connected daemon
whose lookups all raise `NotFound`, the completed refresh holds exactly
one entry at key `some "postgres"`, and that entry is a not-found
record. -/
theorem refresh_snapshot_coverage_witness :
    countKey
        (refresh_status get_all_services daemonUp 3 sampleState).1.container_statuses
        (some "postgres") =
      (if (some "postgres") ∈ service_container_names get_all_services
       then 1 else 0) ∧
    (∃ st,
      dictGet
          (refresh_status get_all_services daemonUp 3 sampleState).1.container_statuses
          (some "postgres") = some st ∧
      (st.status = "error" ∨ st.status = "not_found") ∧
      st.error_message ≠ none) :=
  ⟨(refresh_snapshot_coverage get_all_services daemonUp 3 sampleState rfl).1
      (some "postgres"),
   (refresh_snapshot_coverage get_all_services daemonUp 3 sampleState rfl).2.2
      (some "postgres") (by decide) rfl⟩

/-- Counterexample for C2 as stated: `opensearch-node` is a
catalog-declared container identity (it appears in the `containers` list
of the grouped OpenSearch service), yet after a completed refresh the
snapshot has no entry for it, because `refresh_status` only queries the
service-level `container_name` fields. -/
theorem refresh_snapshot_counterexample :
    "opensearch-node" ∈ declared_container_identities get_all_services ∧
    (refresh_status get_all_services daemonUp 0 sampleState).2.completed = true ∧
    dictGet
        (refresh_status get_all_services daemonUp 0 sampleState).1.container_statuses
        (some "opensearch-node") = none := by
  refine ⟨by decide, rfl, ?_⟩
  rw [(refresh_snapshot_coverage get_all_services daemonUp 0 sampleState
    rfl).2.1 (some "opensearch-node")]
  decide

/-- C3 (amended): a dispatch through `DockerTUIApp.execute_make_command`
that reaches the Command Delegate triggers exactly one subsequent
`refresh_status()` regardless of the result, but a dispatch through
`OperationsScreen.action_execute_operation` never triggers any
`refresh_status()`, even when it reaches the delegate. -/
theorem dispatch_refresh_amended :
    (∀ (ex : ExecCtx) (command description : String),
      (app_execute_make_command (some ex) command description).2.delegate_calls
          = 1 ∧
      (app_execute_make_command (some ex) command description).2.refresh_calls
          = 1) ∧
    (∀ (command_executor : Option ExecCtx)
        (operations : List (String × OpData)) (selected : Option String)
        (confirm_response : Bool),
      (action_execute_operation command_executor operations selected
          confirm_response).2.refresh_calls = 0) := by
  refine ⟨fun ex c desc => ⟨rfl, rfl⟩, fun exec ops sel conf => ?_⟩
  rcases exec with _ | ex
  · rfl
  · rcases sel with _ | k
    · rfl
    · simp only [action_execute_operation]
      split
      · rfl
      · split
        · rfl
        · rcases ((dictGet ops k).getD {}).command with _ | c
          · rcases ((dictGet ops k).getD {}).script with _ | sc
            · rfl
            · rfl
          · rfl

/-- Counterexample for C3 as stated: the system operation `start_all`,
dispatched through the operations screen with an available executor,
reaches the Command Delegate exactly once yet triggers zero refreshes
(the claim demands exactly one). -/
theorem dispatch_refresh_counterexample :
    (action_execute_operation (some sampleExecCtx) SYSTEM_OPERATIONS
        (some "start_all") true).2.delegate_calls = 1 ∧
    ¬ (action_execute_operation (some sampleExecCtx) SYSTEM_OPERATIONS
        (some "start_all") true).2.refresh_calls = 1 := by
  decide

/-- C4: a dispatched Operation whose key lacks the destructive markers
("clean"/"restore" as substrings of the lowercased key) never has a
confirmation requested; one whose key carries a marker always has the
confirmation requested before any delegate call; and a declined
confirmation aborts the dispatch with the delegate uninvoked and no side
effects (output not even cleared).  The confirmation answer is the
response of the `_show_confirmation` seam (stubbed to `True` in the
source and overridden by its tests). -/
theorem destructive_confirmation (ex : ExecCtx)
    (operations : List (String × OpData)) (operation_key : String)
    (d : OpData) (confirm_response : Bool)
    (hop : dictGet operations operation_key = some d)
    (hne : d.isEmptyDict = false) :
    (is_destructive_key operation_key = false →
      (action_execute_operation (some ex) operations (some operation_key)
          confirm_response).2.confirm_requested = false) ∧
    (is_destructive_key operation_key = true →
      (action_execute_operation (some ex) operations (some operation_key)
          confirm_response).2.confirm_requested = true) ∧
    (is_destructive_key operation_key = true → confirm_response = false →
      action_execute_operation (some ex) operations (some operation_key)
          confirm_response =
        (.abortedByUser,
         { confirm_requested := true, delegate_calls := 0,
           refresh_calls := 0, output_cleared := false })) := by
  simp only [action_execute_operation, hop, Option.getD_some, hne,
    Bool.false_eq_true, if_false]
  rcases hd : is_destructive_key operation_key with _ | _
  · refine ⟨fun _ => ?_, fun hc => by simp at hc, fun hc => by simp at hc⟩
    simp only [Bool.false_and, if_false]
    rcases d.command with _ | c
    · rcases d.script with _ | sc
      · rfl
      · rfl
    · rfl
  · refine ⟨fun hc => by simp at hc, fun _ => ?_, fun _ hcr => ?_⟩
    · rcases hcr : confirm_response with _ | _
      · simp only [Bool.true_and, Bool.not_false, if_true]
      · simp only [Bool.true_and, Bool.not_true, if_false]
        rcases d.command with _ | c
        · rcases d.script with _ | sc
          · rfl
          · rfl
        · rfl
    · subst hcr
      simp only [Bool.true_and, Bool.not_false, if_true]

/-- Witness for C4 at concrete inputs: declining the confirmation of the
destructive `restore` operation aborts with the delegate uninvoked; the
non-destructive `status` operation requests no confirmation. -/
theorem destructive_confirmation_witness :
    action_execute_operation (some sampleExecCtx) SYSTEM_OPERATIONS
        (some "restore") false =
      (.abortedByUser,
       { confirm_requested := true, delegate_calls := 0, refresh_calls := 0,
         output_cleared := false }) ∧
    (action_execute_operation (some sampleExecCtx) SYSTEM_OPERATIONS
        (some "status") true).2.confirm_requested = false :=
  ⟨(destructive_confirmation sampleExecCtx SYSTEM_OPERATIONS "restore"
      { script := some "./scripts/restore.sh",
        description := some "Restore services from backup" } false
      (by decide) (by decide)).2.2 (by decide) rfl,
   (destructive_confirmation sampleExecCtx SYSTEM_OPERATIONS "status"
      { command := some "status",
        description := some "Show detailed status of all services" } true
      (by decide) (by decide)).1 (by decide)⟩

/-- C5: for every delegate invocation, a timeout, a missing executable,
and any unexpected exception are each captured by `_execute_command`
into a failure `CommandResult` (success `false`, return code `-1`) whose
`stderr` message distinguishes the three causes; the translation is
total, so no exception escapes the executor. -/
theorem delegate_failures_captured (command : List String) (timeout : Nat)
    (capture_output : Bool) (msg msg' : String) :
    ((_execute_command (fun _ _ => .timedOut) command timeout
        capture_output).success = false ∧
     (_execute_command (fun _ _ => .timedOut) command timeout
        capture_output).return_code = -1) ∧
    ((_execute_command (fun _ _ => .fileNotFound msg) command timeout
        capture_output).success = false ∧
     (_execute_command (fun _ _ => .fileNotFound msg) command timeout
        capture_output).return_code = -1) ∧
    ((_execute_command (fun _ _ => .raised msg') command timeout
        capture_output).success = false ∧
     (_execute_command (fun _ _ => .raised msg') command timeout
        capture_output).return_code = -1) ∧
    (_execute_command (fun _ _ => .timedOut) command timeout
        capture_output).stderr ≠
      (_execute_command (fun _ _ => .fileNotFound msg) command timeout
        capture_output).stderr ∧
    (_execute_command (fun _ _ => .timedOut) command timeout
        capture_output).stderr ≠
      (_execute_command (fun _ _ => .raised msg') command timeout
        capture_output).stderr ∧
    (_execute_command (fun _ _ => .fileNotFound msg) command timeout
        capture_output).stderr ≠
      (_execute_command (fun _ _ => .raised msg') command timeout
        capture_output).stderr := by
  refine ⟨⟨rfl, rfl⟩, ⟨rfl, rfl⟩, ⟨rfl, rfl⟩, ?_, ?_, ?_⟩
  · show "Command timed out after " ++ toString timeout ++ " seconds" ≠
      "Command not found: " ++ msg
    rw [String.append_assoc]
    exact ne_of_data_get "Command timed out after " "Command not found: "
      (toString timeout ++ " seconds") msg 8 (by decide) (by decide) (by decide)
  · show "Command timed out after " ++ toString timeout ++ " seconds" ≠
      "Unexpected error: " ++ msg'
    rw [String.append_assoc]
    exact ne_of_data_get "Command timed out after " "Unexpected error: "
      (toString timeout ++ " seconds") msg' 0 (by decide) (by decide) (by decide)
  · show "Command not found: " ++ msg ≠ "Unexpected error: " ++ msg'
    exact ne_of_data_get "Command not found: " "Unexpected error: "
      msg msg' 0 (by decide) (by decide) (by decide)

/-- Witness for C5 at a concrete command line, timeout and messages. -/
theorem delegate_failures_captured_witness :
    (_execute_command (fun _ _ => .timedOut) ["make", "start"] 30
        true).success = false ∧
    (_execute_command (fun _ _ => .timedOut) ["make", "start"] 30
        true).return_code = -1 ∧
    (_execute_command (fun _ _ => .timedOut) ["make", "start"] 30
        true).stderr ≠
      (_execute_command (fun _ _ => .fileNotFound "make") ["make", "start"]
          30 true).stderr :=
  ⟨(delegate_failures_captured ["make", "start"] 30 true "make" "boom").1.1,
   (delegate_failures_captured ["make", "start"] 30 true "make" "boom").1.2,
   (delegate_failures_captured ["make", "start"] 30 true "make"
      "boom").2.2.2.1⟩

/-- C6: when Command Delegate construction failed (`command_executor` is
`None`), every dispatch — through the app's `execute_make_command` or
the operations screen — returns the `-1` failure `CommandResult` with
its explanatory message (respectively refuses with a notification) and
performs zero delegate invocations. -/
theorem no_executor_short_circuit :
    (∀ command description : String,
      app_execute_make_command none command description =
        ({ success := false, return_code := -1, stdout := "",
           stderr := "Command executor not available", command := command },
         { delegate_calls := 0, refresh_calls := 0, notifications := [] })) ∧
    (∀ (operations : List (String × OpData)) (selected : Option String)
        (confirm_response : Bool),
      action_execute_operation none operations selected confirm_response =
        (.noExecutor,
         { confirm_requested := false, delegate_calls := 0,
           refresh_calls := 0, output_cleared := false })) :=
  ⟨fun _ _ => rfl, fun _ _ _ => rfl⟩

/-- C7: the periodic refresh loop sleeps before its first refresh (no
refresh at time zero), converts an exception inside a tick into exactly
one notification per failing tick while proceeding to the next scheduled
tick, and ends — cleanly, without re-raising — exactly when a
cancellation arrives. -/
theorem auto_refresh_loop_behaviour (events rest : List TickEvent)
    (msg : String) :
    ((auto_refresh_loop events).1.head? = none ∨
      (auto_refresh_loop events).1.head? = some .sleep) ∧
    (auto_refresh_loop (.refreshRaises msg :: rest) =
      (.sleep :: .refreshInvoked ::
         .notifyError ("Auto-refresh error: " ++ msg) ::
         (auto_refresh_loop rest).1,
       (auto_refresh_loop rest).2)) ∧
    (auto_refresh_loop (.cancelDuringSleep :: rest) = ([], true)) ∧
    countNotifications (auto_refresh_loop events).1 =
      countFailingTicks (consumedTicks events) ∧
    ((auto_refresh_loop events).2 = true ↔
      TickEvent.cancelDuringSleep ∈ events) := by
  refine ⟨?_, rfl, rfl, ?_, ?_⟩
  · induction events with
    | nil => left; rfl
    | cons e rest ih =>
        rcases e with _ | _ | m
        · left; rfl
        · right; rfl
        · right; rfl
  · induction events with
    | nil => rfl
    | cons e rest ih =>
        rcases e with _ | _ | m
        · rfl
        · simpa [auto_refresh_loop, consumedTicks, countNotifications,
            countFailingTicks] using ih
        · simpa [auto_refresh_loop, consumedTicks, countNotifications,
            countFailingTicks] using ih
  · induction events with
    | nil => simp [auto_refresh_loop]
    | cons e rest ih =>
        rcases e with _ | _ | m
        · simp [auto_refresh_loop]
        · simpa [auto_refresh_loop] using ih
        · simpa [auto_refresh_loop] using ih

/-- C8: `CommandExecutor` construction fails fast with a descriptive
`RuntimeError` when no repository root (a directory holding the
`Makefile` marker plus the `src` and `scripts` subdirectories, found by
walking upward) can be located, or when `make` does not respond;
construction succeeds exactly when such a root is found and `make`
answers `--version` with exit 0. -/
theorem executor_construction_fail_fast (fs : FileSystem)
    (file_location : PyPath) (make_run : RunOutcome)
    (provided_path : Option PyPath) :
    (_find_repository_root fs file_location provided_path = none →
      commandExecutor_init fs file_location make_run provided_path =
        .raisedRuntimeError "Could not find repository root directory") ∧
    (∀ root,
      _find_repository_root fs file_location provided_path = some root →
      check_make_available make_run = .ok false →
      commandExecutor_init fs file_location make_run provided_path =
        .raisedRuntimeError "Make command not available") ∧
    (∀ root,
      commandExecutor_init fs file_location make_run provided_path =
          .ok root ↔
        (_find_repository_root fs file_location provided_path = some root ∧
          check_make_available make_run = .ok true)) ∧
    (∀ root,
      _find_repository_root fs file_location provided_path = some root →
      is_repo_root fs root = true) := by
  refine ⟨fun hf => ?_, fun root hf hm => ?_, fun root => ?_,
    fun root hf =>
      find_repository_root_is_repo_root fs file_location provided_path
        root hf⟩
  · simp [commandExecutor_init, hf]
  · simp [commandExecutor_init, hf, hm]
  · constructor
    · intro h
      unfold commandExecutor_init at h
      rcases hf : _find_repository_root fs file_location provided_path
        with _ | r
      · rw [hf] at h
        simp at h
      · rw [hf] at h
        rcases hm : check_make_available make_run with m | b
        · rw [hm] at h
          simp at h
        · rcases b with _ | _
          · rw [hm] at h
            simp at h
          · rw [hm] at h
            cases h
            exact ⟨rfl, rfl⟩
    · rintro ⟨hf, hm⟩
      simp [commandExecutor_init, hf, hm]

/-- Witness for C8 at concrete inputs: a filesystem with a valid root at
`/repo` constructs, an empty filesystem fails with the root error, and a
missing `make` binary fails with the availability error. -/
theorem executor_construction_fail_fast_witness :
    commandExecutor_init fsRepo ["app.py"] (.completed 0 "" "")
        (some ["repo"]) = .ok ["repo"] ∧
    commandExecutor_init fsEmpty ["app.py"] (.completed 0 "" "") none =
      .raisedRuntimeError "Could not find repository root directory" ∧
    commandExecutor_init fsRepo ["app.py"] (.fileNotFound "make")
        (some ["repo"]) = .raisedRuntimeError "Make command not available" :=
  ⟨((executor_construction_fail_fast fsRepo ["app.py"] (.completed 0 "" "")
      (some ["repo"])).2.2.1 ["repo"]).mpr ⟨by decide, rfl⟩,
   (executor_construction_fail_fast fsEmpty ["app.py"] (.completed 0 "" "")
      none).1 (by decide),
   (executor_construction_fail_fast fsRepo ["app.py"] (.fileNotFound "make")
      (some ["repo"])).2.1 ["repo"] (by decide) rfl⟩

/-- C9: a CLI refresh-interval value outside `[1, 300]` makes `main()`
exit with code 1 before the interface starts, and every value inside the
range passes this validation. -/
theorem interval_validation (refresh_interval : Int) (env : MainEnv) :
    ((refresh_interval < 1 ∨ refresh_interval > 300) →
      main_run refresh_interval env =
        { exit_code := 1, interval_validated := false,
          app_started := false }) ∧
    (1 ≤ refresh_interval → refresh_interval ≤ 300 →
      (main_run refresh_interval env).interval_validated = true) := by
  constructor
  · intro h
    unfold main_run
    rw [if_pos (by rcases h with h | h <;> simp [h])]
  · intro h1 h2
    unfold main_run
    split
    · rename_i hcond
      simp at hcond
      omega
    · split
      · rfl
      · split
        · rfl
        · split
          · rfl
          · split
            · rfl
            · split
              · rfl
              · rfl

/-- Witness for C9 at concrete inputs: interval 0 exits with code 1
before the app starts, interval 5 passes validation. -/
theorem interval_validation_witness :
    main_run 0 sampleMainEnv =
      { exit_code := 1, interval_validated := false, app_started := false } ∧
    (main_run 5 sampleMainEnv).interval_validated = true :=
  ⟨(interval_validation 0 sampleMainEnv).1 (Or.inl (by decide)),
   (interval_validation 5 sampleMainEnv).2 (by decide) (by decide)⟩

/-- C10: every `CommandResult` produced by the delegate execution paths
satisfies `success = true ↔ return_code = 0`; in particular the
internally generated failures (script not found, timeout, missing
executable, unexpected exception) carry return code `-1` with
`success = false`. -/
theorem success_iff_exit_zero (run : RunOracle) (command : List String)
    (timeout : Nat) (capture_output : Bool) (file_exists : String → Bool)
    (repository_root script_path : String) (args : List String)
    (command_executor : Option ExecCtx) (cmd desc : String) :
    ((_execute_command run command timeout capture_output).success = true ↔
      (_execute_command run command timeout capture_output).return_code
        = 0) ∧
    ((execute_make_command run cmd timeout capture_output).success = true ↔
      (execute_make_command run cmd timeout capture_output).return_code
        = 0) ∧
    ((execute_script file_exists repository_root run script_path args
        timeout capture_output).success = true ↔
      (execute_script file_exists repository_root run script_path args
        timeout capture_output).return_code = 0) ∧
    ((app_execute_make_command command_executor cmd desc).1.success
        = true ↔
      (app_execute_make_command command_executor cmd desc).1.return_code
        = 0) ∧
    (file_exists (os_path_join repository_root script_path) = false →
      (execute_script file_exists repository_root run script_path args
          timeout capture_output).success = false ∧
      (execute_script file_exists repository_root run script_path args
          timeout capture_output).return_code = -1) := by
  have hexec : ∀ (r : RunOracle) (c : List String) (t : Nat) (cap : Bool),
      ((_execute_command r c t cap).success = true ↔
        (_execute_command r c t cap).return_code = 0) := by
    intro r c t cap
    rcases hr : r c t with ⟨rc, out, err⟩ | _ | m | m <;>
      simp [_execute_command, hr]
  refine ⟨hexec run command timeout capture_output,
    hexec run ["make", cmd] timeout capture_output, ?_, ?_, fun hmiss => ?_⟩
  · unfold execute_script
    by_cases hfe :
        file_exists (os_path_join repository_root script_path) = false
    · rw [if_pos hfe]
      simp
    · rw [if_neg hfe]
      exact hexec run (os_path_join repository_root script_path :: args)
        timeout capture_output
  · rcases command_executor with _ | ex
    · simp [app_execute_make_command]
    · exact hexec ex.run ["make", cmd] 60 true
  · unfold execute_script
    rw [if_pos (by simp [hmiss])]
    exact ⟨rfl, rfl⟩

/-- Witness for C10 at concrete inputs: a zero exit is a success, and a
missing script yields the `-1` failure sentinel. -/
theorem success_iff_exit_zero_witness :
    ((_execute_command (fun _ _ => .completed 0 "" "") ["make", "start"] 30
        true).success = true ↔
      (_execute_command (fun _ _ => .completed 0 "" "") ["make", "start"] 30
        true).return_code = 0) ∧
    (execute_script (fun _ => false) "/repo" (fun _ _ => .completed 0 "" "")
        "missing.sh" [] 60 true).success = false ∧
    (execute_script (fun _ => false) "/repo" (fun _ _ => .completed 0 "" "")
        "missing.sh" [] 60 true).return_code = -1 :=
  ⟨(success_iff_exit_zero (fun _ _ => .completed 0 "" "") ["make", "start"]
      30 true (fun _ => false) "/repo" "missing.sh" [] none "start" "").1,
   ((success_iff_exit_zero (fun _ _ => .completed 0 "" "") ["make", "start"]
      30 true (fun _ => false) "/repo" "missing.sh" [] none "start"
      "").2.2.2.2 rfl).1,
   ((success_iff_exit_zero (fun _ _ => .completed 0 "" "") ["make", "start"]
      30 true (fun _ => false) "/repo" "missing.sh" [] none "start"
      "").2.2.2.2 rfl).2⟩

end DockerTUI
